import Mathlib

/-!
Verification of the TLS security-state classification logic of `check-pqc.js`.

The development shallowly embeds the pure parts of the script:

* `formatTimestamp` — the timestamp formatter (`new Date(t * 1000).toISOString()`
  guarded by JS falsiness), including ECMAScript's Date range limit of
  ±8,640,000,000,000,000 milliseconds, outside of which `toISOString` throws
  `RangeError: Invalid time value`; fallibility is modelled with `Except`.
* `classify` — the pure computation performed by the
  `Security.visibleSecurityStateChanged` handler on one event.
* `formatReportBlock` / `sessionEmissions` — the report text built by the
  handler, including the fact that the handler closes over a mutable `result`
  string that accumulates across notifications for one page.
* `resolveUrls` / `mainOutcome` — the command-line URL resolution in `main`.

JS string truthiness (`undefined`, `null` and `""` are falsy) is modelled by
`jsOrStr` on `Option String`; absent numeric fields and the falsy `0` are
modelled by `Option Int` with `some 0` mapping to the default.
-/

namespace CheckPqc

/-! ## Generic string helpers (JS `includes`, `replace`, `startsWith`) -/

/-- Substring occurrence test on character lists: `containsSub pat s` is `true`
iff `pat` occurs contiguously inside `s`.  This is the model of JavaScript
`String.prototype.includes`. -/
def containsSub (pat : List Char) : List Char → Bool
  | [] => pat.isPrefixOf []
  | c :: rest => pat.isPrefixOf (c :: rest) || containsSub pat rest

/-- Model of JavaScript `s.includes(pat)`. -/
def strIncludes (s pat : String) : Bool :=
  containsSub pat.data s.data

/-- Model of JavaScript `s.startsWith(pat)`. -/
def strStartsWith (s pat : String) : Bool :=
  pat.data.isPrefixOf s.data

/-- First-occurrence replacement on character lists; the model of JavaScript
`s.replace(pat, repl)` for a plain-string pattern (replaces the first
occurrence only; when the pattern does not occur the string is unchanged; an
empty pattern matches at the start). -/
def replFirst (pat repl : List Char) : List Char → List Char
  | [] => if pat.isEmpty then repl else []
  | c :: rest =>
      if pat.isPrefixOf (c :: rest) then repl ++ (c :: rest).drop pat.length
      else c :: replFirst pat repl rest

/-- Model of JavaScript `s.replace(pat, repl)` (first occurrence only). -/
def jsReplaceFirst (s pat repl : String) : String :=
  String.mk (replFirst pat.data repl.data s.data)

/-- Model of JavaScript `s.trim()`: strip leading and trailing whitespace
(the report lines hold ASCII text, so ASCII whitespace suffices). -/
def jsTrim (s : String) : String :=
  String.mk (((s.data.dropWhile Char.isWhitespace).reverse.dropWhile Char.isWhitespace).reverse)

/-- Model of JavaScript `s.toUpperCase()` on the ASCII security-state strings
(`secure`, `insecure`, `neutral`, ...): upper-case character by character. -/
def jsToUpper (s : String) : String :=
  String.mk (s.data.map Char.toUpper)

/-- JS `||` on a possibly-absent string field: `undefined`, `null` and the
empty string are falsy, so they all yield the default. -/
def jsOrStr (v : Option String) (d : String) : String :=
  match v with
  | none => d
  | some s => if s = "" then d else s

/-! ## Timestamp formatting (`formatTimestamp` and `Date.prototype.toISOString`) -/

/-- One decimal digit character (of `n % 10`). -/
def digitChar (n : Nat) : Char :=
  Char.ofNat (48 + n % 10)

/-- Two-digit zero-padded rendering; only ever applied to values `< 100`
(months, days, hours, minutes, seconds). -/
def pad2 (n : Nat) : String :=
  String.mk [digitChar (n / 10), digitChar n]

/-- Three-digit zero-padded rendering; only ever applied to values `< 1000`
(milliseconds). -/
def pad3 (n : Nat) : String :=
  String.mk [digitChar (n / 100), digitChar (n / 10), digitChar n]

/-- Four-digit zero-padded rendering; applied to years in `[0, 9999]`. -/
def pad4 (n : Nat) : String :=
  String.mk [digitChar (n / 1000), digitChar (n / 100), digitChar (n / 10), digitChar n]

/-- Six-digit zero-padded rendering; applied to expanded-format years. -/
def pad6 (n : Nat) : String :=
  String.mk [digitChar (n / 100000), digitChar (n / 10000), digitChar (n / 1000),
             digitChar (n / 100), digitChar (n / 10), digitChar n]

/-- Year rendering of `Date.prototype.toISOString`: years `0..9999` print as
four digits, years outside that range print in the expanded `±YYYYYY` form. -/
def yearStr (y : Int) : String :=
  if 0 ≤ y ∧ y ≤ 9999 then pad4 y.toNat
  else if y < 0 then "-" ++ pad6 y.natAbs
  else "+" ++ pad6 y.toNat

/-- Proleptic-Gregorian civil date from a count of days since 1970-01-01
(Howard Hinnant's `civil_from_days`); returns `(year, month, day)`. -/
def civilFromDays (z : Int) : Int × Int × Int :=
  let zs := z + 719468
  let era := Int.fdiv zs 146097
  let doe := zs - era * 146097
  let yoe := Int.fdiv (doe - Int.fdiv doe 1460 + Int.fdiv doe 36524 - Int.fdiv doe 146096) 365
  let doy := doe - (365 * yoe + Int.fdiv yoe 4 - Int.fdiv yoe 100)
  let mp := Int.fdiv (5 * doy + 2) 153
  let d := doy - Int.fdiv (153 * mp + 2) 5 + 1
  let m := if mp < 10 then mp + 3 else mp - 9
  (if m ≤ 2 then yoe + era * 400 + 1 else yoe + era * 400, m, d)

/-- `Date.prototype.toISOString` on a valid (in-range) millisecond time value:
an ISO-8601 UTC timestamp with millisecond precision and a trailing `Z`. -/
def toISOStringMs (ms : Int) : String :=
  let day := Int.fdiv ms 86400000
  let msod := (ms - 86400000 * day).toNat
  let ymd := civilFromDays day
  yearStr ymd.1 ++ "-" ++ pad2 ymd.2.1.toNat ++ "-" ++ pad2 ymd.2.2.toNat ++ "T" ++
    pad2 (msod / 3600000) ++ ":" ++ pad2 (msod / 60000 % 60) ++ ":" ++
    pad2 (msod / 1000 % 60) ++ "." ++ pad3 (msod % 1000) ++ "Z"

/-- Model of the script's

`const formatTimestamp = (timestamp) => { if (!timestamp) return "N/A";
const date = new Date(timestamp * 1000); return date.toISOString(); };`

Absent (`undefined`/`null`) and zero timestamps are falsy and yield `"N/A"`.
Otherwise ECMAScript constructs a Date from `timestamp * 1000` milliseconds;
a time value with absolute value above 8,640,000,000,000,000 ms is an
Invalid Date, and `toISOString` on it throws `RangeError: Invalid time value`,
modelled here as `Except.error`. -/
def formatTimestamp (timestamp : Option Int) : Except String String :=
  match timestamp with
  | none => Except.ok "N/A"
  | some t =>
      if t = 0 then Except.ok "N/A"
      else
        if -8640000000000000 ≤ t * 1000 ∧ t * 1000 ≤ 8640000000000000 then
          Except.ok (toISOStringMs (t * 1000))
        else Except.error "Invalid time value"

/-! ## Data model -/

/-- The `certificateSecurityState` structure of a
`Security.visibleSecurityStateChanged` event, restricted to the fields the
script reads.  String fields may be absent; timestamps are integer seconds
since the Unix epoch and may be absent. -/
structure CertificateSecurityState where
  protocol : Option String
  keyExchange : Option String
  keyExchangeGroup : Option String
  cipher : Option String
  subjectName : Option String
  issuer : Option String
  validFrom : Option Int
  validTo : Option Int
deriving Repr, DecidableEq

/-- The `visibleSecurityState` payload of one security-state notification:
the aggregate `securityState` string plus the optional certificate state. -/
structure VisibleSecurityState where
  securityState : String
  certificateSecurityState : Option CertificateSecurityState
deriving Repr, DecidableEq

/-- The structured classification produced for one notification (the spec's
`ClassificationResult`).  `overallState` carries the raw aggregate state; the
report upper-cases it at formatting time, as the script does. -/
structure ClassificationResult where
  overallState : String
  transportLabel : String
  keyExchangeLabel : String
  keyExchangeGroupLabel : String
  cipherLabel : String
  subjectLabel : String
  issuerLabel : String
  validFromIso : String
  validToIso : String
  pqcDetected : Bool
deriving Repr, DecidableEq

/-- The all-absent certificate state; the model of the `{}` supplied by
`securityState.certificateSecurityState || {}`. -/
def emptyCertState : CertificateSecurityState :=
  ⟨none, none, none, none, none, none, none, none⟩

/-- `securityState.certificateSecurityState || {}` (an object is always truthy
in JS, so a present structure is used as-is). -/
def certStateOf (record : VisibleSecurityState) : CertificateSecurityState :=
  match record.certificateSecurityState with
  | some c => c
  | none => emptyCertState

/-! ## The classifier (`Security.visibleSecurityStateChanged` handler) -/

/-- The pure label computation of the handler, given the already-formatted
timestamp strings.  Mirrors, line for line:

`const protocol = certState.protocol || "Unknown";`
`const tlsVersion = protocol.startsWith("TLS") ? protocol.replace("TLS ", "TLS ") : protocol;`
`const isQUIC = protocol.includes("QUIC");`
`const keyExchange = certState.keyExchange || (isQUIC ? "Handled by QUIC" : "N/A");`
`const keyExchangeGroup = certState.keyExchangeGroup || "N/A";`
`const cipher = certState.cipher || "N/A";` (likewise subject and issuer)
`const pqcDetected = keyExchangeGroup.includes("MLKEM");`

and the transport label `isQUIC ? "QUIC (Uses TLS 1.3 Encryption)" : tlsVersion`
interpolated into the report. -/
def classifyCore (record : VisibleSecurityState) (validFromIso validToIso : String) :
    ClassificationResult :=
  let certState := certStateOf record
  let protocol := jsOrStr certState.protocol "Unknown"
  let tlsVersion :=
    if strStartsWith protocol "TLS" then jsReplaceFirst protocol "TLS " "TLS " else protocol
  let isQUIC := strIncludes protocol "QUIC"
  let keyExchangeGroup := jsOrStr certState.keyExchangeGroup "N/A"
  { overallState := record.securityState
    transportLabel := if isQUIC then "QUIC (Uses TLS 1.3 Encryption)" else tlsVersion
    keyExchangeLabel := jsOrStr certState.keyExchange (if isQUIC then "Handled by QUIC" else "N/A")
    keyExchangeGroupLabel := keyExchangeGroup
    cipherLabel := jsOrStr certState.cipher "N/A"
    subjectLabel := jsOrStr certState.subjectName "N/A"
    issuerLabel := jsOrStr certState.issuer "N/A"
    validFromIso := validFromIso
    validToIso := validToIso
    pqcDetected := strIncludes keyExchangeGroup "MLKEM" }

/-- The full classification of one notification.  The handler calls
`formatTimestamp(certState.validFrom)` and then
`formatTimestamp(certState.validTo)`; if either throws (out-of-range Date),
the handler aborts with that error and produces no result. -/
def classify (record : VisibleSecurityState) : Except String ClassificationResult :=
  match formatTimestamp (certStateOf record).validFrom with
  | Except.error e => Except.error e
  | Except.ok vf =>
      match formatTimestamp (certStateOf record).validTo with
      | Except.error e => Except.error e
      | Except.ok vt => Except.ok (classifyCore record vf vt)

/-! ## Report formatting and the per-page notification session -/

/-- The text block the handler appends to `result` for one notification,
given the classification and the `serverHeader` captured so far.  Mirrors the
sequence of `result += ...` statements (the aggregate state is upper-cased
here, via `securityState.securityState.toUpperCase()`). -/
def formatReportBlock (res : ClassificationResult) (serverHeader : String) : String :=
  "----------------------------------------" ++ "\n" ++
  "🔒 Security State: " ++ jsToUpper res.overallState ++ "\n" ++
  "🖥️ Server: " ++ serverHeader ++ "\n" ++
  "🌐 Transport Protocol: " ++ res.transportLabel ++ "\n" ++
  "🔑 Key Exchange: " ++ res.keyExchangeLabel ++ "\n" ++
  "🔄 Key Exchange Group: " ++ res.keyExchangeGroupLabel ++ "\n" ++
  "🔐 Cipher Suite: " ++ res.cipherLabel ++ "\n" ++
  "📜 Certificate Subject: " ++ res.subjectLabel ++ "\n" ++
  "🏛️ Issuer: " ++ res.issuerLabel ++ "\n" ++
  "📅 Valid From: " ++ res.validFromIso ++ "\n" ++
  "📅 Valid To: " ++ res.validToIso ++ "\n" ++
  "----------------------------------------" ++ "\n" ++
  (if res.pqcDetected then "✅ This site is using Post-Quantum Encryption (PQC)! 🎉"
   else "❌ This site is NOT using Post-Quantum Encryption.") ++ "\n"

/-- The initial value of the handler's `result` accumulator:
`` let result = `\n🔍 Checking: ${url}\n`; ``. -/
def initialHeader (url : String) : String :=
  "\n" ++ "🔍 Checking: " ++ url ++ "\n"

/-- The report for a single notification: the URL header followed by that
notification's block (what a session with exactly one notification emits). -/
def formatReport (url : String) (res : ClassificationResult) (serverHeader : String) : String :=
  initialHeader url ++ formatReportBlock res serverHeader

/-- One page's notification sequence, starting from accumulator `acc`: for
each event the handler appends its block to the shared `result` variable and
then emits the whole accumulator (`console.log(result)`,
`logStream.write(result + "\n")`).  Returns the emitted strings in order. -/
def runNotifications (acc : String) : List (ClassificationResult × String) → List String
  | [] => []
  | e :: rest =>
      (acc ++ formatReportBlock e.1 e.2) ::
        runNotifications (acc ++ formatReportBlock e.1 e.2) rest

/-- The texts emitted (to console and log) for one checked URL, one per
security-state notification; each event pairs a classification with the
`serverHeader` value current at that time. -/
def sessionEmissions (url : String) (events : List (ClassificationResult × String)) :
    List String :=
  runNotifications (initialHeader url) events

/-- Concatenation of the report blocks of a list of events. -/
def blocksConcat (events : List (ClassificationResult × String)) : String :=
  events.foldr (fun e acc => formatReportBlock e.1 e.2 ++ acc) ""

/-- Right-nested join of report lines, each terminated by a newline. -/
def lineJoin (lines : List String) : String :=
  lines.foldr (fun l acc => l ++ "\n" ++ acc) ""

/-! ## Command-line URL resolution (`main`) -/

/-- JS `content.split(/\r?\n/)`: split at each `"\r\n"` or `"\n"`. -/
def splitLinesL : List Char → List (List Char)
  | [] => [[]]
  | '\r' :: '\n' :: rest => [] :: splitLinesL rest
  | '\n' :: rest => [] :: splitLinesL rest
  | c :: rest =>
      match splitLinesL rest with
      | [] => [[c]]
      | l :: ls => (c :: l) :: ls

/-- JS `content.split(/\r?\n/)` on strings. -/
def splitLinesJS (s : String) : List String :=
  (splitLinesL s.data).map String.mk

/-- The URL-list resolution of `main`: with exactly one argument that names an
existing file, the argument is replaced by the file's non-blank lines
(`fileContent.split(/\r?\n/).filter(line => line.trim() !== '')`); in every
other case the arguments are used as URLs unchanged.  The filesystem is
abstracted as the pair of oracles `fileExists` / `fileContent`. -/
def resolveUrls (args : List String) (fileExists : String → Bool)
    (fileContent : String → String) : List String :=
  match args with
  | [a] =>
      if fileExists a then
        (splitLinesJS (fileContent a)).filter (fun line => jsTrim line != "")
      else [a]
  | _ => args

/-- Outcome of `main`'s argument handling: either the usage message plus
`process.exit(1)`, or the batch of URLs subsequently checked one by one. -/
inductive MainOutcome where
  | usageExit1 : MainOutcome
  | check : List String → MainOutcome
deriving Repr, DecidableEq

/-- `main` up to the point where URLs start being processed: resolve the URL
list, then `if (urls.length === 0) { usage; process.exit(1); }`. -/
def mainOutcome (args : List String) (fileExists : String → Bool)
    (fileContent : String → String) : MainOutcome :=
  let urls := resolveUrls args fileExists fileContent
  if urls.isEmpty then MainOutcome.usageExit1 else MainOutcome.check urls

/-! ## Helper lemmas -/

/-- `containsSub` decides substring occurrence: correctness of the
`includes` model against the mathematical decomposition. -/
theorem containsSub_iff (pat s : List Char) :
    containsSub pat s = true ↔ ∃ pre post, s = pre ++ pat ++ post := by
  induction s with
  | nil =>
      simp only [containsSub, List.isPrefixOf_iff_prefix]
      constructor
      · intro hp
        obtain ⟨t, ht⟩ := hp
        exact ⟨[], t, by simp [← ht]⟩
      · rintro ⟨pre, post, hpp⟩
        have h1 : pre = [] ∧ pat = [] ∧ post = [] := by simpa using hpp.symm
        simp [h1.2.1]
  | cons c rest ih =>
      simp only [containsSub, Bool.or_eq_true, List.isPrefixOf_iff_prefix, ih]
      constructor
      · rintro (⟨t, ht⟩ | ⟨pre, post, hr⟩)
        · exact ⟨[], t, by simp [← ht]⟩
        · exact ⟨c :: pre, post, by simp [hr]⟩
      · rintro ⟨pre, post, hpp⟩
        cases pre with
        | nil => exact Or.inl ⟨post, by simpa using hpp.symm⟩
        | cons a pre' =>
            have h1 : c = a ∧ rest = pre' ++ pat ++ post := by simpa using hpp
            exact Or.inr ⟨pre', post, h1.2⟩

/-- `strIncludes` agrees with substring decomposition at the string level. -/
theorem strIncludes_iff (s pat : String) :
    strIncludes s pat = true ↔ ∃ pre post, s.data = pre ++ pat.data ++ post :=
  containsSub_iff pat.data s.data

/-- Replacing a pattern by itself is the identity (hence the script's
`protocol.replace("TLS ", "TLS ")` never changes the protocol string). -/
theorem replFirst_self (pat s : List Char) : replFirst pat pat s = s := by
  induction s with
  | nil =>
      unfold replFirst
      split
      · next hp => exact List.isEmpty_iff.mp hp
      · rfl
  | cons c rest ih =>
      unfold replFirst
      split
      · next hp =>
          obtain ⟨t, ht⟩ := List.isPrefixOf_iff_prefix.mp hp
          rw [← ht, List.drop_left]
      · exact congrArg (c :: ·) ih

/-- String-level identity replacement. -/
theorem jsReplaceFirst_self (s pat : String) : jsReplaceFirst s pat pat = s := by
  show String.mk (replFirst pat.data pat.data s.data) = s
  rw [replFirst_self]

/-- Every rendered ISO timestamp ends in the character `Z`. -/
theorem toISOStringMs_ends_append (ms : Int) : ∃ a, toISOStringMs ms = a ++ "Z" :=
  ⟨_, rfl⟩

/-- A rendered ISO timestamp is never the placeholder `"N/A"`. -/
theorem toISOStringMs_ne_na (ms : Int) : toISOStringMs ms ≠ "N/A" := by
  obtain ⟨a, ha⟩ := toISOStringMs_ends_append ms
  rw [ha]
  intro hcontra
  have hz : "Z".data = ['Z'] := rfl
  have h1 := congrArg (fun s => s.data.getLast?) hcontra
  simp only [String.data_append, hz, List.getLast?_concat] at h1
  exact absurd h1 (by decide)

/-- Inversion of `classify`: an `ok` result is exactly a `classifyCore`
applied to successfully formatted timestamps. -/
theorem classify_ok_iff (record : VisibleSecurityState) (res : ClassificationResult) :
    classify record = Except.ok res ↔
      ∃ vf vt, formatTimestamp (certStateOf record).validFrom = Except.ok vf ∧
        formatTimestamp (certStateOf record).validTo = Except.ok vt ∧
        res = classifyCore record vf vt := by
  unfold classify
  cases h1 : formatTimestamp (certStateOf record).validFrom with
  | error e => simp [h1]
  | ok vf =>
      cases h2 : formatTimestamp (certStateOf record).validTo with
      | error e => simp [h2]
      | ok vt =>
          simp only [Except.ok.injEq]
          constructor
          · intro h
            exact ⟨vf, vt, rfl, rfl, h.symm⟩
          · rintro ⟨vf', vt', hvf, hvt, hres⟩
            cases hvf
            cases hvt
            exact hres.symm

/-- Timestamps within the ECMAScript Date range (|seconds| ≤ 8.64e12),
including absent ones: the inputs for which `formatTimestamp` cannot throw. -/
def tsInRange : Option Int → Prop
  | none => True
  | some t => -8640000000000 ≤ t ∧ t ≤ 8640000000000

/-- A nonzero in-range timestamp formats to its ISO rendering. -/
theorem formatTimestamp_pos (t : Int) (h0 : t ≠ 0)
    (hlo : -8640000000000 ≤ t) (hhi : t ≤ 8640000000000) :
    formatTimestamp (some t) = Except.ok (toISOStringMs (t * 1000)) := by
  show (if t = 0 then Except.ok "N/A"
      else
        if -8640000000000000 ≤ t * 1000 ∧ t * 1000 ≤ 8640000000000000 then
          Except.ok (toISOStringMs (t * 1000))
        else Except.error "Invalid time value") = Except.ok (toISOStringMs (t * 1000))
  rw [if_neg h0, if_pos (by constructor <;> omega)]

/-- `formatTimestamp` succeeds on every in-range (or absent) timestamp. -/
theorem formatTimestamp_ok (o : Option Int) (h : tsInRange o) :
    ∃ s, formatTimestamp o = Except.ok s := by
  match o with
  | none => exact ⟨"N/A", rfl⟩
  | some t =>
      by_cases h0 : t = 0
      · subst h0
        exact ⟨"N/A", rfl⟩
      · obtain ⟨hlo, hhi⟩ := h
        exact ⟨toISOStringMs (t * 1000), formatTimestamp_pos t h0 hlo hhi⟩

/-- The emission for the `i`-th notification of a session is the URL header
followed by the blocks of all notifications up to and including `i`. -/
theorem runNotifications_get (events : List (ClassificationResult × String)) (acc : String)
    (i : Nat) (h : i < (runNotifications acc events).length) :
    (runNotifications acc events).get ⟨i, h⟩ = acc ++ blocksConcat (events.take (i + 1)) := by
  induction events generalizing acc i with
  | nil => simp [runNotifications] at h
  | cons e rest ih =>
      cases i with
      | zero =>
          show acc ++ formatReportBlock e.1 e.2 = acc ++ blocksConcat ((e :: rest).take 1)
          simp [blocksConcat, String.append_empty]
      | succ n =>
          have h' : n < (runNotifications (acc ++ formatReportBlock e.1 e.2) rest).length := by
            have := Nat.lt_of_succ_lt_succ (by simpa [runNotifications] using h)
            simpa using this
          calc (runNotifications acc (e :: rest)).get ⟨n + 1, h⟩
              = (runNotifications (acc ++ formatReportBlock e.1 e.2) rest).get ⟨n, h'⟩ := rfl
            _ = acc ++ formatReportBlock e.1 e.2 ++ blocksConcat (rest.take (n + 1)) :=
                ih _ _ h'
            _ = acc ++ blocksConcat ((e :: rest).take (n + 1 + 1)) := by
                simp [blocksConcat, List.take_succ_cons, String.append_assoc]

end CheckPqc

deriving instance DecidableEq for Except

namespace CheckPqc

/-! ## Claim theorems -/

/-- C1: for every record the classifier accepts, `pqcDetected` is `true` iff
the key-exchange-group label (raw field, or `"N/A"` when absent/empty)
contains the substring `"MLKEM"`, and absence of the field forces `false`. -/
theorem C1_pqcDetected_iff_mlkem (record : VisibleSecurityState) (res : ClassificationResult)
    (h : classify record = Except.ok res) :
    (res.pqcDetected = true ↔
      ∃ pre post, res.keyExchangeGroupLabel.data = pre ++ "MLKEM".data ++ post) ∧
    ((record.certificateSecurityState = none ∨
        ∃ c, record.certificateSecurityState = some c ∧ c.keyExchangeGroup = none) →
      res.pqcDetected = false) := by
  obtain ⟨vf, vt, -, -, rfl⟩ := (classify_ok_iff record res).mp h
  constructor
  · exact strIncludes_iff (jsOrStr (certStateOf record).keyExchangeGroup "N/A") "MLKEM"
  · rintro (hnone | ⟨c, hc, hg⟩)
    · have hcs : certStateOf record = emptyCertState := by simp [certStateOf, hnone]
      show strIncludes (jsOrStr (certStateOf record).keyExchangeGroup "N/A") "MLKEM" = false
      rw [hcs]
      decide
    · have hcs : certStateOf record = c := by simp [certStateOf, hc]
      show strIncludes (jsOrStr (certStateOf record).keyExchangeGroup "N/A") "MLKEM" = false
      rw [hcs, hg]
      decide

/-- C1 witness: a secure record negotiating the hybrid group
`X25519_MLKEM768` is classified PQC-positive, and the iff holds there. -/
theorem C1_pqcDetected_iff_mlkem_witness :
    ((ClassificationResult.mk "secure" "TLS 1.3" "N/A" "X25519_MLKEM768" "N/A" "N/A" "N/A"
        "N/A" "N/A" true).pqcDetected = true ↔
      ∃ pre post, (ClassificationResult.mk "secure" "TLS 1.3" "N/A" "X25519_MLKEM768" "N/A"
        "N/A" "N/A" "N/A" "N/A" true).keyExchangeGroupLabel.data
          = pre ++ "MLKEM".data ++ post) ∧
    (((VisibleSecurityState.mk "secure" (some (CertificateSecurityState.mk (some "TLS 1.3")
        none (some "X25519_MLKEM768") none none none none none))).certificateSecurityState
          = none ∨
      ∃ c, (VisibleSecurityState.mk "secure" (some (CertificateSecurityState.mk (some "TLS 1.3")
        none (some "X25519_MLKEM768") none none none none none))).certificateSecurityState
          = some c ∧ c.keyExchangeGroup = none) →
      (ClassificationResult.mk "secure" "TLS 1.3" "N/A" "X25519_MLKEM768" "N/A" "N/A" "N/A"
        "N/A" "N/A" true).pqcDetected = false) :=
  C1_pqcDetected_iff_mlkem
    (VisibleSecurityState.mk "secure" (some (CertificateSecurityState.mk (some "TLS 1.3")
      none (some "X25519_MLKEM768") none none none none none)))
    (ClassificationResult.mk "secure" "TLS 1.3" "N/A" "X25519_MLKEM768" "N/A" "N/A" "N/A"
      "N/A" "N/A" true)
    (by decide)

/-- C2 (amended): with an entirely absent `certificateState`, `classify`
returns, without error, a result whose labels are all `"N/A"` except the
transport label, which is the code's protocol placeholder `"Unknown"`, and
`pqcDetected = false`. -/
theorem C2_classify_absent_cert (s : String) :
    classify ⟨s, none⟩ =
      Except.ok ⟨s, "Unknown", "N/A", "N/A", "N/A", "N/A", "N/A", "N/A", "N/A", false⟩ := by
  have hcore : classifyCore ⟨"", none⟩ "N/A" "N/A" =
      ⟨"", "Unknown", "N/A", "N/A", "N/A", "N/A", "N/A", "N/A", "N/A", false⟩ := by decide
  calc classify ⟨s, none⟩
      = Except.ok { classifyCore ⟨"", none⟩ "N/A" "N/A" with overallState := s } := rfl
    _ = Except.ok ⟨s, "Unknown", "N/A", "N/A", "N/A", "N/A", "N/A", "N/A", "N/A", false⟩ := by
        rw [hcore]

/-- C2 counterexample: on an absent `certificateState` the transport label is
`"Unknown"`, not `"N/A"`, so not every label defaults to `"N/A"`. -/
theorem C2_transport_not_na :
    classify ⟨"secure", none⟩ =
      Except.ok ⟨"secure", "Unknown", "N/A", "N/A", "N/A", "N/A", "N/A", "N/A", "N/A", false⟩ ∧
    ("Unknown" : String) ≠ "N/A" :=
  ⟨by decide, by decide⟩

/-- C3 (amended): `classify` raises no error on any record whose timestamps
(when present) lie within the ECMAScript Date range of ±8.64e12 seconds;
all missing fields degrade to defaults. -/
theorem C3_classify_total_in_range (record : VisibleSecurityState)
    (h1 : tsInRange (certStateOf record).validFrom)
    (h2 : tsInRange (certStateOf record).validTo) :
    ∃ res, classify record = Except.ok res := by
  obtain ⟨vf, hvf⟩ := formatTimestamp_ok _ h1
  obtain ⟨vt, hvt⟩ := formatTimestamp_ok _ h2
  exact ⟨classifyCore record vf vt, (classify_ok_iff record _).mpr ⟨vf, vt, hvf, hvt, rfl⟩⟩

/-- C3 witness: a fully populated in-range record classifies successfully. -/
theorem C3_classify_total_in_range_witness :
    tsInRange (certStateOf ⟨"secure", some ⟨some "TLS 1.3", none, none, none, none, none,
        some 1704067200, some 1735689599⟩⟩).validFrom ∧
    tsInRange (certStateOf ⟨"secure", some ⟨some "TLS 1.3", none, none, none, none, none,
        some 1704067200, some 1735689599⟩⟩).validTo ∧
    ∃ res, classify ⟨"secure", some ⟨some "TLS 1.3", none, none, none, none, none,
        some 1704067200, some 1735689599⟩⟩ = Except.ok res :=
  ⟨⟨by decide, by decide⟩, ⟨by decide, by decide⟩,
    C3_classify_total_in_range _ ⟨by decide, by decide⟩ ⟨by decide, by decide⟩⟩

/-- C3 counterexample: a well-formed record whose `validFrom` exceeds the
Date range makes the classification throw `RangeError: Invalid time value`,
so the operation is not total over arbitrary integer timestamps. -/
theorem C3_out_of_range_throws :
    classify ⟨"secure", some ⟨none, none, none, none, none, none, some 8640000000001, none⟩⟩ =
      Except.error "Invalid time value" := by decide

/-- C4 (amended): zero and absent timestamps format to `"N/A"`; every
positive timestamp within the Date range formats without error to an ISO
string ending in `Z` (never `"N/A"`), with
`formatTimestamp 1704067200 = "2024-01-01T00:00:00.000Z"`. -/
theorem C4_formatTimestamp_iso (t : Int) (h0 : 0 < t) (hr : t ≤ 8640000000000) :
    formatTimestamp none = Except.ok "N/A" ∧
    formatTimestamp (some 0) = Except.ok "N/A" ∧
    (∃ s, formatTimestamp (some t) = Except.ok s ∧
      s.data.getLast? = some 'Z' ∧ s ≠ "N/A") ∧
    formatTimestamp (some 1704067200) = Except.ok "2024-01-01T00:00:00.000Z" := by
  refine ⟨rfl, rfl, ?_, by decide⟩
  refine ⟨toISOStringMs (t * 1000),
    formatTimestamp_pos t (by omega) (by omega) hr, ?_, toISOStringMs_ne_na _⟩
  obtain ⟨a, ha⟩ := toISOStringMs_ends_append (t * 1000)
  rw [ha]
  have hz : "Z".data = ['Z'] := rfl
  simp [String.data_append, hz, List.getLast?_concat]

/-- C4 witness: instantiation at the spec's own example `1704067200`. -/
theorem C4_formatTimestamp_iso_witness :
    (0 : Int) < 1704067200 ∧ (1704067200 : Int) ≤ 8640000000000 ∧
    (formatTimestamp none = Except.ok "N/A" ∧
      formatTimestamp (some 0) = Except.ok "N/A" ∧
      (∃ s, formatTimestamp (some 1704067200) = Except.ok s ∧
        s.data.getLast? = some 'Z' ∧ s ≠ "N/A") ∧
      formatTimestamp (some 1704067200) = Except.ok "2024-01-01T00:00:00.000Z") :=
  ⟨by decide, by decide, C4_formatTimestamp_iso 1704067200 (by decide) (by decide)⟩

/-- C4 counterexample: at the positive integer 8640000000001 seconds the
formatter throws (`Invalid time value`) instead of returning an ISO string. -/
theorem C4_out_of_range_error :
    formatTimestamp (some 8640000000001) = Except.error "Invalid time value" := by decide

/-- C9 (amended): every negative in-range timestamp yields an ISO string
(never `"N/A"`), and `formatTimestamp (-1) = "1969-12-31T23:59:59.000Z"`. -/
theorem C9_negative_timestamp_iso (t : Int) (hneg : t < 0) (hr : -8640000000000 ≤ t) :
    (∃ s, formatTimestamp (some t) = Except.ok s ∧ s ≠ "N/A") ∧
    formatTimestamp (some (-1)) = Except.ok "1969-12-31T23:59:59.000Z" := by
  refine ⟨⟨toISOStringMs (t * 1000),
    formatTimestamp_pos t (by omega) hr (by omega), toISOStringMs_ne_na _⟩, by decide⟩

/-- C9 witness: instantiation at `-1`. -/
theorem C9_negative_timestamp_iso_witness :
    (-1 : Int) < 0 ∧ -8640000000000 ≤ (-1 : Int) ∧
    ((∃ s, formatTimestamp (some (-1)) = Except.ok s ∧ s ≠ "N/A") ∧
      formatTimestamp (some (-1)) = Except.ok "1969-12-31T23:59:59.000Z") :=
  ⟨by decide, by decide, C9_negative_timestamp_iso (-1) (by decide) (by decide)⟩

/-- C9 counterexample: at the negative integer -8640000000001 seconds the
formatter throws instead of returning a pre-1970 ISO string. -/
theorem C9_out_of_range_error :
    formatTimestamp (some (-8640000000001)) = Except.error "Invalid time value" := by decide

/-- The transport label of a classification, unfolded. -/
theorem classifyCore_transportLabel (record : VisibleSecurityState) (vf vt : String) :
    (classifyCore record vf vt).transportLabel =
      if strIncludes (jsOrStr (certStateOf record).protocol "Unknown") "QUIC" then
        "QUIC (Uses TLS 1.3 Encryption)"
      else if strStartsWith (jsOrStr (certStateOf record).protocol "Unknown") "TLS" then
        jsReplaceFirst (jsOrStr (certStateOf record).protocol "Unknown") "TLS " "TLS "
      else jsOrStr (certStateOf record).protocol "Unknown" := rfl

/-- C5 (amended): for every accepted record with a present, non-empty
protocol string, the transport label is the fixed QUIC display label when the
protocol contains `"QUIC"` (regardless of all other fields), and the protocol
string verbatim otherwise. -/
theorem C5_transport_label (record : VisibleSecurityState) (res : ClassificationResult)
    (p : String) (h : classify record = Except.ok res)
    (hp : (certStateOf record).protocol = some p) (hne : p ≠ "") :
    ((∃ pre post, p.data = pre ++ "QUIC".data ++ post) →
      res.transportLabel = "QUIC (Uses TLS 1.3 Encryption)") ∧
    ((¬ ∃ pre post, p.data = pre ++ "QUIC".data ++ post) → res.transportLabel = p) := by
  obtain ⟨vf, vt, -, -, rfl⟩ := (classify_ok_iff record res).mp h
  have hlabel : jsOrStr (certStateOf record).protocol "Unknown" = p := by
    rw [hp]
    simp [jsOrStr, hne]
  have htl : (classifyCore record vf vt).transportLabel =
      if strIncludes p "QUIC" then "QUIC (Uses TLS 1.3 Encryption)"
      else if strStartsWith p "TLS" then jsReplaceFirst p "TLS " "TLS " else p := by
    rw [classifyCore_transportLabel, hlabel]
  constructor
  · intro hq
    have hq' : strIncludes p "QUIC" = true := (strIncludes_iff p "QUIC").mpr hq
    rw [htl]
    simp [hq']
  · intro hq
    have hq' : strIncludes p "QUIC" = false := by
      cases hcase : strIncludes p "QUIC" with
      | false => rfl
      | true => exact absurd ((strIncludes_iff p "QUIC").mp hcase) hq
    rw [htl]
    cases hts : strStartsWith p "TLS" <;> simp [hq', hts, jsReplaceFirst_self]

/-- C5 witness: a record negotiating protocol `"TLS 1.3"` keeps its protocol
string verbatim as the transport label. -/
theorem C5_transport_label_witness :
    ((∃ pre post, ("TLS 1.3" : String).data = pre ++ "QUIC".data ++ post) →
      (ClassificationResult.mk "secure" "TLS 1.3" "N/A" "N/A" "N/A" "N/A" "N/A" "N/A" "N/A"
        false).transportLabel = "QUIC (Uses TLS 1.3 Encryption)") ∧
    ((¬ ∃ pre post, ("TLS 1.3" : String).data = pre ++ "QUIC".data ++ post) →
      (ClassificationResult.mk "secure" "TLS 1.3" "N/A" "N/A" "N/A" "N/A" "N/A" "N/A" "N/A"
        false).transportLabel = "TLS 1.3") :=
  C5_transport_label
    (VisibleSecurityState.mk "secure" (some (CertificateSecurityState.mk (some "TLS 1.3")
      none none none none none none none)))
    (ClassificationResult.mk "secure" "TLS 1.3" "N/A" "N/A" "N/A" "N/A" "N/A" "N/A" "N/A" false)
    "TLS 1.3" (by decide) rfl (by decide)

/-- C5 counterexample: a present but empty protocol string contains no
`"QUIC"`, yet the transport label is the falsy-default `"Unknown"`, not the
protocol string verbatim. -/
theorem C5_empty_protocol_unknown :
    classify ⟨"secure", some ⟨some "", none, none, none, none, none, none, none⟩⟩ =
      Except.ok ⟨"secure", "Unknown", "N/A", "N/A", "N/A", "N/A", "N/A", "N/A", "N/A", false⟩ ∧
    strIncludes "" "QUIC" = false ∧
    ("Unknown" : String) ≠ "" :=
  ⟨by decide, by decide, by decide⟩

/-- C6 (amended): the handler's `result` accumulator makes the text emitted
for the `i`-th notification equal to the URL header followed by the report
blocks of every notification up to and including the `i`-th — emissions
accumulate rather than being a function of one notification alone. -/
theorem C6_emission_accumulates (url : String) (events : List (ClassificationResult × String))
    (i : Nat) (h : i < (sessionEmissions url events).length) :
    (sessionEmissions url events).get ⟨i, h⟩ =
      initialHeader url ++ blocksConcat (events.take (i + 1)) :=
  runNotifications_get events (initialHeader url) i h

/-- C6 witness: in a two-notification session the second emission is the
header plus both blocks. -/
theorem C6_emission_accumulates_witness :
    1 < (sessionEmissions "https://example.com"
      [(ClassificationResult.mk "neutral" "TLS 1.2" "N/A" "X25519" "N/A" "N/A" "N/A" "N/A"
          "N/A" false, "nginx"),
       (ClassificationResult.mk "secure" "TLS 1.3" "N/A" "X25519_MLKEM768" "N/A" "N/A" "N/A"
          "N/A" "N/A" true, "nginx")]).length ∧
    (sessionEmissions "https://example.com"
      [(ClassificationResult.mk "neutral" "TLS 1.2" "N/A" "X25519" "N/A" "N/A" "N/A" "N/A"
          "N/A" false, "nginx"),
       (ClassificationResult.mk "secure" "TLS 1.3" "N/A" "X25519_MLKEM768" "N/A" "N/A" "N/A"
          "N/A" "N/A" true, "nginx")]).get ⟨1, by decide⟩ =
      initialHeader "https://example.com" ++ blocksConcat
        ([(ClassificationResult.mk "neutral" "TLS 1.2" "N/A" "X25519" "N/A" "N/A" "N/A" "N/A"
            "N/A" false, "nginx"),
          (ClassificationResult.mk "secure" "TLS 1.3" "N/A" "X25519_MLKEM768" "N/A" "N/A" "N/A"
            "N/A" "N/A" true, "nginx")].take 2) :=
  ⟨by decide, C6_emission_accumulates "https://example.com"
    [(ClassificationResult.mk "neutral" "TLS 1.2" "N/A" "X25519" "N/A" "N/A" "N/A" "N/A"
        "N/A" false, "nginx"),
     (ClassificationResult.mk "secure" "TLS 1.3" "N/A" "X25519_MLKEM768" "N/A" "N/A" "N/A"
        "N/A" "N/A" true, "nginx")] 1 (by decide)⟩

/-- C6 counterexample: two sessions whose second notification, URL and server
header are identical but whose first notifications differ produce different
second emissions, so the emitted text is not a function of the notification
alone, and a later emission repeats (rather than replaces) earlier blocks. -/
theorem C6_second_emission_depends_on_first :
    (sessionEmissions "https://example.com"
      [(ClassificationResult.mk "neutral" "TLS 1.2" "N/A" "X25519" "N/A" "N/A" "N/A" "N/A"
          "N/A" false, "nginx"),
       (ClassificationResult.mk "secure" "TLS 1.3" "N/A" "X25519_MLKEM768" "N/A" "N/A" "N/A"
          "N/A" "N/A" true, "nginx")]).get? 1 ≠
    (sessionEmissions "https://example.com"
      [(ClassificationResult.mk "secure" "TLS 1.3" "N/A" "X25519_MLKEM768" "N/A" "N/A" "N/A"
          "N/A" "N/A" true, "nginx"),
       (ClassificationResult.mk "secure" "TLS 1.3" "N/A" "X25519_MLKEM768" "N/A" "N/A" "N/A"
          "N/A" "N/A" true, "nginx")]).get? 1 := by decide

/-- C7: `formatReport` is a pure function — two calls on identical inputs are
the same string — and its output is exactly the newline-join of the report
lines in the fixed documented order (header, separator, upper-cased overall
state, server, transport, key exchange, key-exchange group, cipher, subject,
issuer, valid-from, valid-to, separator, PQC verdict). -/
theorem C7_formatReport_deterministic_ordered (url : String) (res : ClassificationResult)
    (serverHeader : String) :
    formatReport url res serverHeader = formatReport url res serverHeader ∧
    formatReport url res serverHeader =
      "\n" ++ lineJoin
        ["🔍 Checking: " ++ url,
         "----------------------------------------",
         "🔒 Security State: " ++ jsToUpper res.overallState,
         "🖥️ Server: " ++ serverHeader,
         "🌐 Transport Protocol: " ++ res.transportLabel,
         "🔑 Key Exchange: " ++ res.keyExchangeLabel,
         "🔄 Key Exchange Group: " ++ res.keyExchangeGroupLabel,
         "🔐 Cipher Suite: " ++ res.cipherLabel,
         "📜 Certificate Subject: " ++ res.subjectLabel,
         "🏛️ Issuer: " ++ res.issuerLabel,
         "📅 Valid From: " ++ res.validFromIso,
         "📅 Valid To: " ++ res.validToIso,
         "----------------------------------------",
         if res.pqcDetected then "✅ This site is using Post-Quantum Encryption (PQC)! 🎉"
         else "❌ This site is NOT using Post-Quantum Encryption."] := by
  refine ⟨rfl, ?_⟩
  simp only [formatReport, initialHeader, formatReportBlock, lineJoin, List.foldr_cons,
    List.foldr_nil, String.append_empty, String.append_assoc]

/-- C8: in file mode the resolved URL list is exactly the file's lines whose
trimmed content is non-empty, in their original order, and `main` exits with
the usage message and code 1 exactly when that list is empty. -/
theorem C8_url_file_resolution (path content : String) (fileExists : String → Bool)
    (fileContent : String → String) (hfe : fileExists path = true)
    (hfc : fileContent path = content) :
    resolveUrls [path] fileExists fileContent
        = (splitLinesJS content).filter (fun line => jsTrim line != "") ∧
    (resolveUrls [path] fileExists fileContent).Sublist (splitLinesJS content) ∧
    (∀ line, line ∈ resolveUrls [path] fileExists fileContent ↔
      line ∈ splitLinesJS content ∧ jsTrim line ≠ "") ∧
    (resolveUrls [path] fileExists fileContent = [] →
      mainOutcome [path] fileExists fileContent = MainOutcome.usageExit1) ∧
    (resolveUrls [path] fileExists fileContent ≠ [] →
      mainOutcome [path] fileExists fileContent
        = MainOutcome.check (resolveUrls [path] fileExists fileContent)) := by
  have hres : resolveUrls [path] fileExists fileContent
      = (splitLinesJS content).filter (fun line => jsTrim line != "") := by
    simp [resolveUrls, hfe, hfc]
  refine ⟨hres, ?_, ?_, ?_, ?_⟩
  · rw [hres]
    exact List.filter_sublist _
  · intro line
    rw [hres]
    simp [List.mem_filter, bne_iff_ne]
  · intro hnil
    simp [mainOutcome, hnil]
  · intro hnn
    have hfalse : (resolveUrls [path] fileExists fileContent).isEmpty = false := by
      cases hcase : resolveUrls [path] fileExists fileContent with
      | nil => exact absurd hcase hnn
      | cons a l => rfl
    simp [mainOutcome, hfalse]

/-- C8 witness: a file with one blank and one whitespace-only line resolves
to its two URLs, which `main` then checks. -/
theorem C8_url_file_resolution_witness :
    resolveUrls ["urls.txt"] (fun _ => true)
        (fun _ => "https://a.example\n\n  \nhttps://b.example\n")
      = ["https://a.example", "https://b.example"] ∧
    mainOutcome ["urls.txt"] (fun _ => true)
        (fun _ => "https://a.example\n\n  \nhttps://b.example\n")
      = MainOutcome.check ["https://a.example", "https://b.example"] := by
  have h := C8_url_file_resolution "urls.txt" "https://a.example\n\n  \nhttps://b.example\n"
    (fun _ => true) (fun _ => "https://a.example\n\n  \nhttps://b.example\n") rfl rfl
  refine ⟨h.1.trans (by decide), ?_⟩
  have h2 := h.2.2.2.2 (by decide)
  rw [h2, h.1]
  decide

/-- C10: the file-of-URLs mode is taken exactly when there is a single
argument naming an existing file; with two or more arguments every argument
is treated as a URL, even if one names an existing file. -/
theorem C10_multi_arg_urls (args : List String) (fileExists : String → Bool)
    (fileContent : String → String) :
    (2 ≤ args.length → resolveUrls args fileExists fileContent = args ∧
      mainOutcome args fileExists fileContent = MainOutcome.check args) ∧
    (∀ a, args = [a] → fileExists a = true →
      resolveUrls args fileExists fileContent
        = (splitLinesJS (fileContent a)).filter (fun line => jsTrim line != "")) ∧
    (∀ a, args = [a] → fileExists a = false →
      resolveUrls args fileExists fileContent = [a]) := by
  refine ⟨?_, ?_, ?_⟩
  · intro h2
    cases args with
    | nil => simp at h2
    | cons a t =>
        cases t with
        | nil => simp at h2
        | cons b r => exact ⟨rfl, rfl⟩
  · intro a ha hfe
    subst ha
    simp [resolveUrls, hfe]
  · intro a ha hfe
    subst ha
    simp [resolveUrls, hfe]

/-- C10 witness: two arguments, both naming existing files, are nevertheless
both checked as URLs. -/
theorem C10_multi_arg_urls_witness :
    2 ≤ (["urls.txt", "https://x.example"] : List String).length ∧
    (resolveUrls ["urls.txt", "https://x.example"] (fun _ => true) (fun _ => "https://y.example")
        = ["urls.txt", "https://x.example"] ∧
      mainOutcome ["urls.txt", "https://x.example"] (fun _ => true) (fun _ => "https://y.example")
        = MainOutcome.check ["urls.txt", "https://x.example"]) :=
  ⟨by decide, (C10_multi_arg_urls ["urls.txt", "https://x.example"] (fun _ => true)
    (fun _ => "https://y.example")).1 (by decide)⟩

end CheckPqc
